import Mathlib

/-!
Verification of the FLE CRUD mongod glue layer: the session
yield/unyield protocol of `FLEMongoDResourceYielder`, the reply metadata
augmenter `setMongosFieldsInReply`, the thread-pool lifecycle entry point
`stopFLECrud`, and the `processFLEInsert` entry point, shallowly embedded
from the source.
-/

namespace FLECrud

/-- Replication mode as published by the replication coordinator
(`repl::ReplicationCoordinator::Mode`): `modeNone` for a standalone node,
`modeReplSet` for a replica-set member. -/
inductive ReplicationMode where
  | modeNone
  | modeReplSet
deriving DecidableEq, Repr

/-- Read-only replication facts consulted by the code: the coordinator
mode, the last op of the client (`ReplClientInfo::forClient(..).getLastOp`)
and the election id of the coordinator (`getElectionId`). -/
structure ReplCoordState where
  mode : ReplicationMode
  lastOp : Nat
  electionId : Nat
deriving DecidableEq, Repr

/-- The base of a write command reply (`write_ops::WriteCommandReplyBase`)
restricted to the two optional fields this code touches: the opTime
(replication position) and the election id. -/
structure WriteCommandReplyBase where
  opTime : Option Nat
  electionId : Option Nat
deriving DecidableEq, Repr

/-- Reads performed on the replication coordinator (and repl client info)
by the augmenter, in order. -/
inductive CoordRead where
  | getReplicationMode
  | getLastOp
  | getElectionId
deriving DecidableEq, Repr

/-- Embedding of `setMongosFieldsInReply`: returns the updated reply base
together with the list of replication reads performed. The source returns
early when both fields are already set; otherwise it reads the mode and,
when the mode is not `modeNone`, sets both fields. -/
def setMongosFieldsInReply (env : ReplCoordState) (replyBase : WriteCommandReplyBase) :
    WriteCommandReplyBase × List CoordRead :=
  if replyBase.opTime.isSome && replyBase.electionId.isSome then
    (replyBase, [])
  else
    if env.mode ≠ ReplicationMode.modeNone then
      ({ replyBase with opTime := some env.lastOp, electionId := some env.electionId },
        [CoordRead.getReplicationMode, CoordRead.getLastOp, CoordRead.getElectionId])
    else
      (replyBase, [CoordRead.getReplicationMode])

/-- A session, as returned by `OperationContextSession::get`. -/
structure Session where
  sid : Nat
deriving DecidableEq, Repr

/-- A transaction participant, as returned by
`TransactionParticipant::get`. -/
structure TransactionParticipant where
  tid : Nat
deriving DecidableEq, Repr

/-- The slice of the operation context the yielder consults: the attached
session (if any) and the transaction participant (if any). -/
structure OpCtx where
  session : Option Session
  txnParticipant : Option TransactionParticipant
deriving DecidableEq, Repr

/-- Session and participant-state effects performed by the yielder:
`stash` is `stashTransactionResources`, `checkIn` is
`MongoDOperationContextSession::checkIn`, `checkOut` is
`MongoDOperationContextSession::checkOut`, and `unstash` is a successful
`unstashTransactionResources`. -/
inductive YieldEvent where
  | stash
  | checkIn
  | checkOut
  | unstash
deriving DecidableEq, Repr

/-- State of a `FLEMongoDResourceYielder`: the `_yielded` flag. -/
structure FLEMongoDResourceYielder where
  _yielded : Bool
deriving DecidableEq, Repr

/-- A freshly constructed yielder: the member initializer is
`bool _yielded = false`. -/
def FLEMongoDResourceYielder.new : FLEMongoDResourceYielder :=
  { _yielded := false }

/-- Embedding of `FLEMongoDResourceYielder::yield`: when a session is
attached, stash the participant state if a participant exists, then check
the session in; set `_yielded` to whether a session was attached. Returns
the new yielder state and the events performed. -/
def FLEMongoDResourceYielder.yield (_y : FLEMongoDResourceYielder) (opCtx : OpCtx) :
    FLEMongoDResourceYielder × List YieldEvent :=
  let events :=
    match opCtx.session with
    | some _ =>
        (match opCtx.txnParticipant with
          | some _ => [YieldEvent.stash]
          | none => []) ++ [YieldEvent.checkIn]
    | none => []
  ({ _yielded := opCtx.session.isSome }, events)

/-- The error code `ErrorCodes::NoSuchTransaction`. -/
def noSuchTransactionCode : Nat := 251

/-- Embedding of `FLEMongoDResourceYielder::unyield`. `unstashError` is
the outcome of `unstashTransactionResources`: `none` when it succeeds,
`some c` when it throws error code `c`. Returns the events performed and
the error that propagates to the caller, if any; the source catches
exactly `ExceptionFor<ErrorCodes::NoSuchTransaction>`. -/
def FLEMongoDResourceYielder.unyield (y : FLEMongoDResourceYielder) (opCtx : OpCtx)
    (unstashError : Option Nat) : List YieldEvent × Option Nat :=
  if y._yielded then
    match opCtx.txnParticipant with
    | some _ =>
        match unstashError with
        | none => ([YieldEvent.checkOut, YieldEvent.unstash], none)
        | some c =>
            if c = noSuchTransactionCode then ([YieldEvent.checkOut], none)
            else ([YieldEvent.checkOut], some c)
    | none => ([YieldEvent.checkOut], none)
  else
    ([], none)

/-- Modelled from the spec: the `ThreadPool` implementation
(`mongo/util/concurrency/thread_pool`) is not among the sources here. The
spec says stop "signals shutdown and joins all workers, guaranteeing no
work is in flight when it returns", so a pool state records whether
shutdown was signalled and how much work is in flight. -/
structure ThreadPoolState where
  shutdownSignaled : Bool
  inFlight : Nat
deriving DecidableEq, Repr

/-- Modelled from the spec: `ThreadPool::shutdown`, as invoked by the stop
path, signals shutdown and joins all workers, so no work is in flight when
it returns. -/
def ThreadPool.shutdown (p : ThreadPoolState) : ThreadPoolState :=
  { p with shutdownSignaled := true, inFlight := 0 }

/-- Embedding of `stopFLECrud`: the global `_fleCrudthreadPool` is `none`
exactly when the pool was never started (`startFLECrud` returns early on a
standalone); the source shuts the pool down only when the pointer is
non-null. -/
def stopFLECrud (pool : Option ThreadPoolState) : Option ThreadPoolState :=
  match pool with
  | none => none
  | some p => some (ThreadPool.shutdown p)

/-- Result enumeration of the FLE write processor (`FLEBatchResult`). -/
inductive FLEBatchResult where
  | kNotProcessed
  | kProcessed
deriving DecidableEq, Repr

/-- External calls made by `processFLEInsert` after its precondition:
`callProcessInsert` is the call into the transformation layer
`processInsert` (which builds the transaction via
`getTransactionWithRetriesForMongoD`, hence the TransactionExecutor and
WorkerPool), and `callSetMongosFields` is the call to the augmenter. -/
inductive ProcEvent where
  | callProcessInsert
  | callSetMongosFields
deriving DecidableEq, Repr

/-- Embedding of `processFLEInsert`. `processInsertResult` is the pair
returned by the external `processInsert`; `insertReply` is the
caller-supplied out-parameter. Returns the external calls performed and
either the uassert error code or the batch result together with the final
contents of the out-parameter. -/
def processFLEInsert (env : ReplCoordState)
    (processInsertResult : FLEBatchResult × WriteCommandReplyBase)
    (insertReply : WriteCommandReplyBase) :
    List ProcEvent × Except Nat (FLEBatchResult × WriteCommandReplyBase) :=
  if env.mode ≠ ReplicationMode.modeReplSet then
    ([], Except.error 6371602)
  else
    match processInsertResult with
    | (FLEBatchResult.kNotProcessed, _) =>
        ([ProcEvent.callProcessInsert],
          Except.ok (FLEBatchResult.kNotProcessed, insertReply))
    | (FLEBatchResult.kProcessed, insertReplyReturn) =>
        ([ProcEvent.callProcessInsert, ProcEvent.callSetMongosFields],
          Except.ok (FLEBatchResult.kProcessed,
            (setMongosFieldsInReply env insertReplyReturn).1))

/-- C1: for every operation context, if a session is attached, `yield`
stashes the participant state (exactly when a transaction participant
exists) and then checks the session in, and records that a release
occurred; if no session is attached it performs no stash and no checkin
and records that no release occurred. -/
theorem C1_yield_spec (y : FLEMongoDResourceYielder) (opCtx : OpCtx) :
    (opCtx.session.isSome = true →
      (y.yield opCtx).2 =
        (if opCtx.txnParticipant.isSome then [YieldEvent.stash] else []) ++
          [YieldEvent.checkIn] ∧
      ((y.yield opCtx).1)._yielded = true) ∧
    (opCtx.session = none →
      (y.yield opCtx).2 = [] ∧ ((y.yield opCtx).1)._yielded = false) := by
  constructor
  · intro hs
    cases hcs : opCtx.session with
    | none => rw [hcs] at hs; simp at hs
    | some s =>
      cases hct : opCtx.txnParticipant with
      | none => simp [FLEMongoDResourceYielder.yield, hcs, hct]
      | some t => simp [FLEMongoDResourceYielder.yield, hcs, hct]
  · intro hs
    simp [FLEMongoDResourceYielder.yield, hs]

/-- Witness for C1 at a concrete context with a session and a
participant. -/
theorem C1_yield_spec_witness :
    (FLEMongoDResourceYielder.new.yield
        { session := some { sid := 0 }, txnParticipant := some { tid := 0 } }).2 =
      (if ({ session := some { sid := 0 }, txnParticipant := some { tid := 0 } } :
          OpCtx).txnParticipant.isSome then [YieldEvent.stash] else []) ++
        [YieldEvent.checkIn] ∧
    ((FLEMongoDResourceYielder.new.yield
        { session := some { sid := 0 }, txnParticipant := some { tid := 0 } }).1)._yielded =
      true :=
  (C1_yield_spec FLEMongoDResourceYielder.new
    { session := some { sid := 0 }, txnParticipant := some { tid := 0 } }).1 (by decide)

/-- C2: when the matching yield released a session and a transaction
participant is present, a restoration failure carrying the
NoSuchTransaction code is swallowed and `unyield` returns normally, while
a restoration failure with any other code propagates to the caller. -/
theorem C2_unyield_swallow (y : FLEMongoDResourceYielder) (opCtx : OpCtx)
    (h : y._yielded = true) (hp : opCtx.txnParticipant.isSome = true) :
    (y.unyield opCtx (some noSuchTransactionCode)).2 = none ∧
    ∀ c : Nat, c ≠ noSuchTransactionCode → (y.unyield opCtx (some c)).2 = some c := by
  cases hct : opCtx.txnParticipant with
  | none => rw [hct] at hp; simp at hp
  | some t =>
    constructor
    · simp [FLEMongoDResourceYielder.unyield, h, hct]
    · intro c hc
      simp [FLEMongoDResourceYielder.unyield, h, hct, hc]

/-- Witness for C2 at a concrete yielded state: NoSuchTransaction (251) is
swallowed, an unrelated code such as DuplicateKey (11000) propagates. -/
theorem C2_unyield_swallow_witness :
    ((⟨true⟩ : FLEMongoDResourceYielder).unyield
        { session := some { sid := 0 }, txnParticipant := some { tid := 0 } }
        (some noSuchTransactionCode)).2 = none ∧
    ((⟨true⟩ : FLEMongoDResourceYielder).unyield
        { session := some { sid := 0 }, txnParticipant := some { tid := 0 } }
        (some 11000)).2 = some 11000 :=
  ⟨(C2_unyield_swallow ⟨true⟩
      { session := some { sid := 0 }, txnParticipant := some { tid := 0 } } rfl rfl).1,
    (C2_unyield_swallow ⟨true⟩
      { session := some { sid := 0 }, txnParticipant := some { tid := 0 } } rfl rfl).2
      11000 (by decide)⟩

/-- C3: `unyield` performs no checkout, no restoration and reports no
error unless the released flag is set; in particular on a freshly
constructed yielder it does nothing. -/
theorem C3_unyield_noop (y : FLEMongoDResourceYielder) (opCtx : OpCtx)
    (u : Option Nat) (h : y._yielded = false) :
    y.unyield opCtx u = ([], none) ∧
    FLEMongoDResourceYielder.new.unyield opCtx u = ([], none) := by
  constructor
  · simp [FLEMongoDResourceYielder.unyield, h]
  · simp [FLEMongoDResourceYielder.unyield, FLEMongoDResourceYielder.new]

/-- Witness for C3 at a concrete context and unstash outcome. -/
theorem C3_unyield_noop_witness :
    (⟨false⟩ : FLEMongoDResourceYielder).unyield
        { session := some { sid := 3 }, txnParticipant := some { tid := 3 } }
        (some 11000) = ([], none) ∧
    FLEMongoDResourceYielder.new.unyield
        { session := some { sid := 3 }, txnParticipant := some { tid := 3 } }
        (some 11000) = ([], none) :=
  C3_unyield_noop ⟨false⟩
    { session := some { sid := 3 }, txnParticipant := some { tid := 3 } }
    (some 11000) rfl

/-- C4: on a node whose replication mode is none, `processFLEInsert` fails
with the uassert code 6371602 and performs no external call at all: the
transformation layer (and through it the TransactionExecutor and the
WorkerPool) is never invoked and the error is returned, not retried. -/
theorem C4_standalone_uassert (env : ReplCoordState)
    (pr : FLEBatchResult × WriteCommandReplyBase) (r : WriteCommandReplyBase)
    (h : env.mode = ReplicationMode.modeNone) :
    processFLEInsert env pr r = ([], Except.error 6371602) := by
  simp [processFLEInsert, h]

/-- Witness for C4 on a concrete standalone node. -/
theorem C4_standalone_uassert_witness :
    processFLEInsert { mode := ReplicationMode.modeNone, lastOp := 1, electionId := 2 }
        (FLEBatchResult.kProcessed, { opTime := none, electionId := none })
        { opTime := none, electionId := none } = ([], Except.error 6371602) :=
  C4_standalone_uassert { mode := ReplicationMode.modeNone, lastOp := 1, electionId := 2 }
    (FLEBatchResult.kProcessed, { opTime := none, electionId := none })
    { opTime := none, electionId := none } rfl

/-- C5: `stopFLECrud` is a no-op when the pool was never started; when the
pool was started it signals shutdown and joins all workers, so no work is
in flight when it returns. -/
theorem C5_stop_spec (p : ThreadPoolState) :
    stopFLECrud none = none ∧
    stopFLECrud (some p) = some { shutdownSignaled := true, inFlight := 0 } := by
  exact ⟨rfl, rfl⟩

/-- C6: the augmenter leaves the reply unchanged when both fields are
already set; it also leaves the reply unchanged when the mode is none; in
every other case it sets both fields from the replication state. -/
theorem C6_augment_cases (env : ReplCoordState) (r : WriteCommandReplyBase) :
    (r.opTime.isSome = true → r.electionId.isSome = true →
      (setMongosFieldsInReply env r).1 = r) ∧
    (env.mode = ReplicationMode.modeNone → (setMongosFieldsInReply env r).1 = r) ∧
    (¬(r.opTime.isSome = true ∧ r.electionId.isSome = true) →
      env.mode ≠ ReplicationMode.modeNone →
      (setMongosFieldsInReply env r).1 =
        { r with opTime := some env.lastOp, electionId := some env.electionId }) := by
  refine ⟨?_, ?_, ?_⟩
  · intro h1 h2
    simp [setMongosFieldsInReply, h1, h2]
  · intro hm
    by_cases h1 : r.opTime.isSome = true <;> by_cases h2 : r.electionId.isSome = true <;>
      simp [setMongosFieldsInReply, h1, h2, hm]
  · intro hns hm
    have hb : (r.opTime.isSome && r.electionId.isSome) = false := by
      cases h1 : r.opTime.isSome <;> cases h2 : r.electionId.isSome <;> simp_all
    simp [setMongosFieldsInReply, hb, hm]

/-- Witness for C6 at concrete inputs: a fully pre-set reply is unchanged,
and a reply with both fields unset gets both set on a replica-set node. -/
theorem C6_augment_cases_witness :
    (setMongosFieldsInReply { mode := ReplicationMode.modeReplSet, lastOp := 7, electionId := 9 }
        { opTime := some 1, electionId := some 2 }).1 =
      { opTime := some 1, electionId := some 2 } ∧
    (setMongosFieldsInReply { mode := ReplicationMode.modeReplSet, lastOp := 7, electionId := 9 }
        { opTime := none, electionId := none }).1 =
      { opTime := some 7, electionId := some 9 } :=
  ⟨(C6_augment_cases { mode := ReplicationMode.modeReplSet, lastOp := 7, electionId := 9 }
      { opTime := some 1, electionId := some 2 }).1 rfl rfl,
    (C6_augment_cases { mode := ReplicationMode.modeReplSet, lastOp := 7, electionId := 9 }
      { opTime := none, electionId := none }).2.2 (by decide) (by decide)⟩

/-- C7: applying the augmenter twice with the same replication state
yields the same reply as applying it once, and when both fields are
pre-set the augmenter performs no replication reads. -/
theorem C7_augment_idempotent (env : ReplCoordState) (r : WriteCommandReplyBase) :
    (setMongosFieldsInReply env (setMongosFieldsInReply env r).1).1 =
      (setMongosFieldsInReply env r).1 ∧
    (r.opTime.isSome = true → r.electionId.isSome = true →
      (setMongosFieldsInReply env r).2 = []) := by
  constructor
  · by_cases h1 : r.opTime.isSome = true <;> by_cases h2 : r.electionId.isSome = true <;>
      by_cases hm : env.mode = ReplicationMode.modeNone <;>
        simp [setMongosFieldsInReply, h1, h2, hm]
  · intro h1 h2
    simp [setMongosFieldsInReply, h1, h2]

/-- Witness for C7 at a concrete pre-set reply: augmenting is stable and
performs no replication reads. -/
theorem C7_augment_idempotent_witness :
    (setMongosFieldsInReply { mode := ReplicationMode.modeReplSet, lastOp := 7, electionId := 9 }
        (setMongosFieldsInReply
          { mode := ReplicationMode.modeReplSet, lastOp := 7, electionId := 9 }
          { opTime := some 1, electionId := some 2 }).1).1 =
      (setMongosFieldsInReply { mode := ReplicationMode.modeReplSet, lastOp := 7, electionId := 9 }
        { opTime := some 1, electionId := some 2 }).1 ∧
    (setMongosFieldsInReply { mode := ReplicationMode.modeReplSet, lastOp := 7, electionId := 9 }
        { opTime := some 1, electionId := some 2 }).2 = [] :=
  ⟨(C7_augment_idempotent { mode := ReplicationMode.modeReplSet, lastOp := 7, electionId := 9 }
      { opTime := some 1, electionId := some 2 }).1,
    (C7_augment_idempotent { mode := ReplicationMode.modeReplSet, lastOp := 7, electionId := 9 }
      { opTime := some 1, electionId := some 2 }).2 rfl rfl⟩

/-- C8 as stated fails on the code: the early return fires only when both
fields are set, so on a reply whose opTime is pre-set (to 5) while the
election id is unset, a replica-set node overwrites the pre-set opTime
with the coordinator value (7). -/
theorem C8_counterexample :
    ({ opTime := some 5, electionId := none } : WriteCommandReplyBase).opTime = some 5 ∧
    ((setMongosFieldsInReply
        { mode := ReplicationMode.modeReplSet, lastOp := 7, electionId := 9 }
        { opTime := some 5, electionId := none }).1).opTime = some 7 := by
  exact ⟨rfl, rfl⟩

/-- C8 amended: a field already set on entry is preserved when the other
field is also set, or when the mode is none; when at least one of the two
fields is unset and the mode is not none, the augmenter writes both
fields with the coordinator values, overwriting any singly pre-set
field. -/
theorem C8_amended_write_once (env : ReplCoordState) (r : WriteCommandReplyBase) :
    (r.opTime.isSome = true → r.electionId.isSome = true →
      ((setMongosFieldsInReply env r).1).opTime = r.opTime ∧
      ((setMongosFieldsInReply env r).1).electionId = r.electionId) ∧
    (env.mode = ReplicationMode.modeNone →
      ((setMongosFieldsInReply env r).1).opTime = r.opTime ∧
      ((setMongosFieldsInReply env r).1).electionId = r.electionId) ∧
    (¬(r.opTime.isSome = true ∧ r.electionId.isSome = true) →
      env.mode ≠ ReplicationMode.modeNone →
      ((setMongosFieldsInReply env r).1).opTime = some env.lastOp ∧
      ((setMongosFieldsInReply env r).1).electionId = some env.electionId) := by
  refine ⟨?_, ?_, ?_⟩
  · intro h1 h2
    simp [setMongosFieldsInReply, h1, h2]
  · intro hm
    by_cases h1 : r.opTime.isSome = true <;> by_cases h2 : r.electionId.isSome = true <;>
      simp [setMongosFieldsInReply, h1, h2, hm]
  · intro hns hm
    have hb : (r.opTime.isSome && r.electionId.isSome) = false := by
      cases h1 : r.opTime.isSome <;> cases h2 : r.electionId.isSome <;> simp_all
    simp [setMongosFieldsInReply, hb, hm]

/-- Witness for the amended C8 at concrete inputs. -/
theorem C8_amended_write_once_witness :
    ((setMongosFieldsInReply { mode := ReplicationMode.modeReplSet, lastOp := 7, electionId := 9 }
        { opTime := some 1, electionId := some 2 }).1).opTime = some 1 ∧
    ((setMongosFieldsInReply { mode := ReplicationMode.modeReplSet, lastOp := 7, electionId := 9 }
        { opTime := some 5, electionId := none }).1).opTime = some 7 :=
  ⟨((C8_amended_write_once
      { mode := ReplicationMode.modeReplSet, lastOp := 7, electionId := 9 }
      { opTime := some 1, electionId := some 2 }).1 rfl rfl).1,
    ((C8_amended_write_once
      { mode := ReplicationMode.modeReplSet, lastOp := 7, electionId := 9 }
      { opTime := some 5, electionId := none }).2.2 (by decide) (by decide)).1⟩

/-- C9: on a replica-set node, when the transformation layer reports
kNotProcessed, the processor returns kNotProcessed with the
caller-supplied reply unchanged and does not invoke the augmenter. -/
theorem C9_not_processed (env : ReplCoordState) (ret : WriteCommandReplyBase)
    (r : WriteCommandReplyBase) (h : env.mode = ReplicationMode.modeReplSet) :
    processFLEInsert env (FLEBatchResult.kNotProcessed, ret) r =
      ([ProcEvent.callProcessInsert],
        Except.ok (FLEBatchResult.kNotProcessed, r)) := by
  simp [processFLEInsert, h]

/-- Witness for C9 at a concrete replica-set node. -/
theorem C9_not_processed_witness :
    processFLEInsert { mode := ReplicationMode.modeReplSet, lastOp := 7, electionId := 9 }
        (FLEBatchResult.kNotProcessed, { opTime := some 1, electionId := some 2 })
        { opTime := none, electionId := none } =
      ([ProcEvent.callProcessInsert],
        Except.ok (FLEBatchResult.kNotProcessed,
          ({ opTime := none, electionId := none } : WriteCommandReplyBase))) :=
  C9_not_processed { mode := ReplicationMode.modeReplSet, lastOp := 7, electionId := 9 }
    { opTime := some 1, electionId := some 2 }
    { opTime := none, electionId := none } rfl

/-- C10: on a context with an attached session but no transaction
participant, yield checks the session in without stashing and records the
release, and the matching unyield checks the session out without any
unstash and without error. -/
theorem C10_session_without_participant (y : FLEMongoDResourceYielder) (opCtx : OpCtx)
    (s : Session) (hs : opCtx.session = some s) (hp : opCtx.txnParticipant = none)
    (u : Option Nat) :
    (y.yield opCtx).2 = [YieldEvent.checkIn] ∧
    ((y.yield opCtx).1)._yielded = true ∧
    ((y.yield opCtx).1).unyield opCtx u = ([YieldEvent.checkOut], none) := by
  refine ⟨?_, ?_, ?_⟩ <;>
    simp [FLEMongoDResourceYielder.yield, FLEMongoDResourceYielder.unyield, hs, hp]

/-- Witness for C10 at a concrete session-only context. -/
theorem C10_session_without_participant_witness :
    (FLEMongoDResourceYielder.new.yield
        { session := some { sid := 4 }, txnParticipant := none }).2 =
      [YieldEvent.checkIn] ∧
    ((FLEMongoDResourceYielder.new.yield
        { session := some { sid := 4 }, txnParticipant := none }).1)._yielded = true ∧
    ((FLEMongoDResourceYielder.new.yield
        { session := some { sid := 4 }, txnParticipant := none }).1).unyield
        { session := some { sid := 4 }, txnParticipant := none } none =
      ([YieldEvent.checkOut], none) :=
  C10_session_without_participant FLEMongoDResourceYielder.new
    { session := some { sid := 4 }, txnParticipant := none } { sid := 4 } rfl rfl none

end FLECrud
